import Mathlib

/-!
# Verification of the Île-de-France footballers enrichment pipeline

A shallow embedding of `src/analysis/analyze_players.py` (the enrichment
pipeline: Geographic Resolver, Diaspora Classifier, Enrichment Aggregator,
Report Generator) together with proofs of the specification's claims about it.

Python strings are modelled as Lean `String` (lists of unicode characters),
Python dicts that are used as insertion-ordered counters are modelled as
association lists (`List (κ × Nat)`), and Python exceptions are modelled with
`Except PyError`.
-/

/-- The Python exceptions that the embedded code can raise. -/
inductive PyError where
  | valueError
  | zeroDivisionError
  | attributeError
  deriving Repr, DecidableEq

instance {ε α : Type} [DecidableEq ε] [DecidableEq α] : DecidableEq (Except ε α) :=
  fun x y =>
    match x, y with
    | .ok a, .ok b =>
        if h : a = b then .isTrue (by rw [h])
        else .isFalse (by intro hc; cases hc; exact h rfl)
    | .error e, .error f =>
        if h : e = f then .isTrue (by rw [h])
        else .isFalse (by intro hc; cases hc; exact h rfl)
    | .ok _, .error _ => .isFalse (by intro hc; cases hc)
    | .error _, .ok _ => .isFalse (by intro hc; cases hc)

/-! ## String primitives -/

/-- Models `str.lower()` on the ASCII range: uppercase ASCII letters are mapped
to the corresponding lowercase letters, every other character is unchanged.
(Python also folds non-ASCII letters; no input exercised by the analysis below
contains an uppercase non-ASCII letter, the lookup tables are already
lowercase.) -/
def pyCharLower (c : Char) : Char :=
  if 'A' ≤ c ∧ c ≤ 'Z' then Char.ofNat (c.toNat + 32) else c

/-- Models the Python expression `s.lower()`. -/
def pyLower (s : String) : String :=
  String.mk (s.data.map pyCharLower)

/-- `needle` occurs as a contiguous run inside `hay` (on character lists). -/
def charsContain (needle : List Char) : List Char → Bool
  | [] => needle.isEmpty
  | c :: cs => needle.isPrefixOf (c :: cs) || charsContain needle cs

/-- Models the Python expression `needle in hay` on strings. -/
def pyIn (needle hay : String) : Bool :=
  charsContain needle.data hay.data

theorem charsContain_iff_infix (needle : List Char) :
    ∀ hay : List Char, charsContain needle hay = true ↔ needle <:+: hay := by
  intro hay
  induction hay with
  | nil =>
    simp only [charsContain, List.isEmpty_iff]
    constructor
    · rintro rfl; exact List.infix_refl _
    · intro h; exact List.eq_nil_of_infix_nil h
  | cons c cs ih =>
    simp only [charsContain, Bool.or_eq_true, List.isPrefixOf_iff_prefix, ih,
      List.infix_cons_iff]

theorem pyIn_trans {a b c : String} (hab : pyIn a b = true) (hbc : pyIn b c = true) :
    pyIn a c = true := by
  rw [pyIn, charsContain_iff_infix] at *
  exact hab.trans hbc

/-! ## Model of Python `int()` applied to a string

`int(s)` accepts optional surrounding ASCII whitespace, an optional sign and a
nonempty run of ASCII decimal digits in which single underscores may appear
between digits.  (Non-ASCII decimal digits, which CPython also accepts, are not
modelled; no claim exercises them.)  Returns `none` where CPython raises
`ValueError`. -/

/-- ASCII whitespace stripped by `int()` (via `str.strip` semantics). -/
def pyIsSpace (c : Char) : Bool :=
  c == ' ' || c == '\t' || c == '\n' || c == '\r' || c == '\x0b' || c == '\x0c'

/-- Digit-run parser: grammar `digit (digit | "_" digit)*`, accumulating the
value. -/
def pyDigitsGo (acc : Nat) : List Char → Option Nat
  | [] => some acc
  | '_' :: c :: cs =>
    if c.isDigit then pyDigitsGo (acc * 10 + (c.toNat - 48)) cs else none
  | c :: cs =>
    if c.isDigit then pyDigitsGo (acc * 10 + (c.toNat - 48)) cs else none

/-- Parse a nonempty underscore-grouped digit run. -/
def pyDigits : List Char → Option Nat
  | [] => none
  | c :: cs => if c.isDigit then pyDigitsGo (c.toNat - 48) cs else none

/-- Models `int(s)` for a string `s`, as `none` when CPython raises
`ValueError`. -/
def pyIntOfChars (cs : List Char) : Option Int :=
  let trimmed := ((cs.dropWhile pyIsSpace).reverse.dropWhile pyIsSpace).reverse
  match trimmed with
  | [] => none
  | c :: rest =>
    if c == '+' then (pyDigits rest).map (fun n => (n : Int))
    else if c == '-' then (pyDigits rest).map (fun n => -(n : Int))
    else (pyDigits (c :: rest)).map (fun n => (n : Int))

def pyInt? (s : String) : Option Int :=
  pyIntOfChars s.data

example : pyInt? "1980" = some 1980 := by decide
example : pyInt? "19XX" = none := by decide
example : pyInt? "abcd" = none := by decide
example : pyInt? " -195" = some (-195) := by decide

/-! ## Insertion-ordered counters (Python `defaultdict(int)` / `Counter`) -/

/-- Models `m[k] += 1` on a `defaultdict(int)`: an existing key is incremented
in place, a new key is appended at the end with count 1 (CPython dicts preserve
insertion order). -/
def bump {κ : Type} [BEq κ] : List (κ × Nat) → κ → List (κ × Nat)
  | [], k => [(k, 1)]
  | (k', v) :: rest, k =>
    if k' == k then (k', v + 1) :: rest else (k', v) :: bump rest k

/-- Models `m[k] += n` on a `defaultdict(int)`. -/
def bumpBy {κ : Type} [BEq κ] : List (κ × Nat) → κ → Nat → List (κ × Nat)
  | [], k, n => [(k, n)]
  | (k', v) :: rest, k, n =>
    if k' == k then (k', v + n) :: rest else (k', v) :: bumpBy rest k n

/-- Models `Counter(l)`: counts in first-occurrence order. -/
def counterOf {κ : Type} [BEq κ] (l : List κ) : List (κ × Nat) :=
  l.foldl bump []

/-- Sum of the counts of a counter (Python `sum(m.values())`). -/
def sumCounts {κ : Type} (m : List (κ × Nat)) : Nat :=
  (m.map (fun p => p.2)).sum

theorem sumCounts_bump {κ : Type} [BEq κ] (m : List (κ × Nat)) (k : κ) :
    sumCounts (bump m k) = sumCounts m + 1 := by
  induction m with
  | nil => simp [bump, sumCounts]
  | cons p rest ih =>
    obtain ⟨k', v⟩ := p
    by_cases h : (k' == k) = true
    · simp [bump, h, sumCounts]; omega
    · simp only [bump, h, if_false, Bool.false_eq_true]
      simp [sumCounts] at ih ⊢
      omega

/-! ## Stable sorts used by the pipeline

`sorted(items, key=lambda x: -x[1])` (resp. `Counter.most_common`) is a stable
sort by count descending; `sorted(items)` on an int-keyed dict is a sort by key
ascending (keys are distinct, so the rest of the tuple comparison never
fires).  Both are modelled as stable insertion sorts processing the items in
iteration order: each item is inserted after all previously-placed items that
must not come after it. -/

/-- Insert after every element of count `≥ x.2` (stability of
`reverse=True`). -/
def insertByCountDesc {α : Type} (x : α × Nat) : List (α × Nat) → List (α × Nat)
  | [] => [x]
  | y :: ys => if y.2 < x.2 then x :: y :: ys else y :: insertByCountDesc x ys

/-- Models `sorted(l, key=lambda p: -p[1])`, a stable descending sort by
count. -/
def sortByCountDesc {α : Type} (l : List (α × Nat)) : List (α × Nat) :=
  l.foldl (fun acc x => insertByCountDesc x acc) []

/-- Insert before the first element of strictly larger key. -/
def insertByKeyAsc (x : Int × Nat) : List (Int × Nat) → List (Int × Nat)
  | [] => [x]
  | y :: ys => if x.1 < y.1 then x :: y :: ys else y :: insertByKeyAsc x ys

/-- Models `sorted(l)` on `(int, count)` pairs with distinct keys. -/
def sortByKeyAsc (l : List (Int × Nat)) : List (Int × Nat) :=
  l.foldl (fun acc x => insertByKeyAsc x acc) []

/-- Rows sorted by descending count. -/
def DescByCount {α : Type} (l : List (α × Nat)) : Prop :=
  l.Pairwise (fun a b => b.2 ≤ a.2)

/-- Rows sorted by ascending key. -/
def AscByKey (l : List (Int × Nat)) : Prop :=
  l.Pairwise (fun a b => a.1 ≤ b.1)

theorem mem_insertByCountDesc {α : Type} {z x : α × Nat} :
    ∀ {l : List (α × Nat)}, z ∈ insertByCountDesc x l → z = x ∨ z ∈ l := by
  intro l
  induction l with
  | nil => intro h; simpa [insertByCountDesc] using h
  | cons w ws ihw =>
    intro h
    rw [insertByCountDesc] at h
    by_cases hw : w.2 < x.2
    · rw [if_pos hw] at h
      rcases List.mem_cons.mp h with rfl | h2
      · exact Or.inl rfl
      · exact Or.inr h2
    · rw [if_neg hw] at h
      rcases List.mem_cons.mp h with rfl | h2
      · exact Or.inr (List.mem_cons_self _ _)
      · rcases ihw h2 with rfl | h3
        · exact Or.inl rfl
        · exact Or.inr (List.mem_cons_of_mem _ h3)

theorem descByCount_insertByCountDesc {α : Type} (x : α × Nat)
    (l : List (α × Nat)) (h : DescByCount l) : DescByCount (insertByCountDesc x l) := by
  induction l with
  | nil => simp [insertByCountDesc, DescByCount]
  | cons y ys ih =>
    rw [DescByCount, List.pairwise_cons] at h
    obtain ⟨hy, hys⟩ := h
    by_cases hc : y.2 < x.2
    · rw [insertByCountDesc, if_pos hc]
      refine List.Pairwise.cons ?_ (List.Pairwise.cons hy hys)
      intro z hz
      rcases List.mem_cons.mp hz with rfl | hz'
      · omega
      · have := hy z hz'; omega
    · rw [insertByCountDesc, if_neg hc]
      refine List.Pairwise.cons ?_ (ih hys)
      intro z hz
      rcases mem_insertByCountDesc hz with rfl | hz'
      · omega
      · exact hy z hz'

theorem descByCount_sortByCountDesc {α : Type} (l : List (α × Nat)) :
    DescByCount (sortByCountDesc l) := by
  rw [sortByCountDesc]
  have : ∀ acc : List (α × Nat), DescByCount acc →
      DescByCount (l.foldl (fun acc x => insertByCountDesc x acc) acc) := by
    induction l with
    | nil => intro acc h; simpa using h
    | cons x xs ih =>
      intro acc h
      exact ih _ (descByCount_insertByCountDesc x acc h)
  exact this [] (by simp [DescByCount])

theorem mem_insertByKeyAsc {z x : Int × Nat} :
    ∀ {l : List (Int × Nat)}, z ∈ insertByKeyAsc x l → z = x ∨ z ∈ l := by
  intro l
  induction l with
  | nil => intro h; simpa [insertByKeyAsc] using h
  | cons w ws ihw =>
    intro h
    rw [insertByKeyAsc] at h
    by_cases hw : x.1 < w.1
    · rw [if_pos hw] at h
      rcases List.mem_cons.mp h with rfl | h2
      · exact Or.inl rfl
      · exact Or.inr h2
    · rw [if_neg hw] at h
      rcases List.mem_cons.mp h with rfl | h2
      · exact Or.inr (List.mem_cons_self _ _)
      · rcases ihw h2 with rfl | h3
        · exact Or.inl rfl
        · exact Or.inr (List.mem_cons_of_mem _ h3)

theorem ascByKey_insertByKeyAsc (x : Int × Nat) (l : List (Int × Nat))
    (h : AscByKey l) : AscByKey (insertByKeyAsc x l) := by
  induction l with
  | nil => simp [insertByKeyAsc, AscByKey]
  | cons y ys ih =>
    rw [AscByKey, List.pairwise_cons] at h
    obtain ⟨hy, hys⟩ := h
    by_cases hc : x.1 < y.1
    · rw [insertByKeyAsc, if_pos hc]
      refine List.Pairwise.cons ?_ (List.Pairwise.cons hy hys)
      intro z hz
      rcases List.mem_cons.mp hz with rfl | hz'
      · omega
      · have := hy z hz'; omega
    · rw [insertByKeyAsc, if_neg hc]
      refine List.Pairwise.cons ?_ (ih hys)
      intro z hz
      rcases mem_insertByKeyAsc hz with rfl | hz'
      · omega
      · exact hy z hz'

theorem ascByKey_sortByKeyAsc (l : List (Int × Nat)) : AscByKey (sortByKeyAsc l) := by
  rw [sortByKeyAsc]
  have : ∀ acc : List (Int × Nat), AscByKey acc →
      AscByKey (l.foldl (fun acc x => insertByKeyAsc x acc) acc) := by
    induction l with
    | nil => intro acc h; simpa using h
    | cons x xs ih =>
      intro acc h
      exact ih _ (ascByKey_insertByKeyAsc x acc h)
  exact this [] (by simp [AscByKey])

theorem sumCounts_insertByCountDesc {α : Type} (x : α × Nat) (l : List (α × Nat)) :
    sumCounts (insertByCountDesc x l) = sumCounts l + x.2 := by
  induction l with
  | nil => simp [insertByCountDesc, sumCounts]
  | cons y ys ih =>
    by_cases hc : y.2 < x.2
    · simp [insertByCountDesc, hc, sumCounts]; omega
    · simp only [insertByCountDesc, if_neg hc]
      simp [sumCounts] at ih ⊢
      omega

theorem sumCounts_sortByCountDesc {α : Type} (l : List (α × Nat)) :
    sumCounts (sortByCountDesc l) = sumCounts l := by
  rw [sortByCountDesc]
  have : ∀ acc : List (α × Nat),
      sumCounts (l.foldl (fun acc x => insertByCountDesc x acc) acc) =
        sumCounts acc + sumCounts l := by
    induction l with
    | nil => intro acc; simp [sumCounts]
    | cons x xs ih =>
      intro acc
      rw [List.foldl_cons, ih, sumCounts_insertByCountDesc]
      simp [sumCounts]
      omega
  rw [this []]
  simp [sumCounts]

/-! ## Geographic Resolver — `extract_department_from_birthplace`

The city → département table, in Python dict-literal (= iteration) order. -/

def city_to_dept : List (String × String) := [
  ("boulogne-billancourt", "92"),
  ("nanterre", "92"),
  ("colombes", "92"),
  ("asnières", "92"),
  ("courbevoie", "92"),
  ("rueil-malmaison", "92"),
  ("issy-les-moulineaux", "92"),
  ("levallois-perret", "92"),
  ("neuilly-sur-seine", "92"),
  ("antony", "92"),
  ("clichy", "92"),
  ("clamart", "92"),
  ("meudon", "92"),
  ("montrouge", "92"),
  ("suresnes", "92"),
  ("gennevilliers", "92"),
  ("châtillon", "92"),
  ("sceaux", "92"),
  ("puteaux", "92"),
  ("vanves", "92"),
  ("garches", "92"),
  ("chaville", "92"),
  ("fontenay-aux-roses", "92"),
  ("le plessis-robinson", "92"),
  ("bagneux", "92"),
  ("châtenay-malabry", "92"),
  ("créteil", "94"),
  ("vitry-sur-seine", "94"),
  ("champigny-sur-marne", "94"),
  ("saint-maur-des-fossés", "94"),
  ("ivry-sur-seine", "94"),
  ("maisons-alfort", "94"),
  ("fontenay-sous-bois", "94"),
  ("villejuif", "94"),
  ("vincennes", "94"),
  ("alfortville", "94"),
  ("choisy-le-roi", "94"),
  ("le kremlin-bicêtre", "94"),
  ("nogent-sur-marne", "94"),
  ("thiais", "94"),
  ("cachan", "94"),
  ("charenton-le-pont", "94"),
  ("orly", "94"),
  ("villeneuve-saint-georges", "94"),
  ("arcueil", "94"),
  ("fresnes", "94"),
  ("sucy-en-brie", "94"),
  ("joinville-le-pont", "94"),
  ("saint-mandé", "94"),
  ("versailles", "78"),
  ("sartrouville", "78"),
  ("mantes-la-jolie", "78"),
  ("saint-germain-en-laye", "78"),
  ("poissy", "78"),
  ("conflans-sainte-honorine", "78"),
  ("montigny-le-bretonneux", "78"),
  ("les mureaux", "78"),
  ("plaisir", "78"),
  ("trappes", "78"),
  ("houilles", "78"),
  ("chatou", "78"),
  ("le chesnay", "78"),
  ("carrières-sous-poissy", "78"),
  ("élancourt", "78"),
  ("rambouillet", "78"),
  ("meaux", "77"),
  ("chelles", "77"),
  ("melun", "77"),
  ("pontault-combault", "77"),
  ("savigny-le-temple", "77"),
  ("torcy", "77"),
  ("roissy-en-brie", "77"),
  ("combs-la-ville", "77"),
  ("villeparisis", "77"),
  ("ozoir-la-ferrière", "77"),
  ("dammarie-les-lys", "77"),
  ("lagny-sur-marne", "77"),
  ("évry", "91"),
  ("corbeil-essonnes", "91"),
  ("massy", "91"),
  ("savigny-sur-orge", "91"),
  ("sainte-geneviève-des-bois", "91"),
  ("athis-mons", "91"),
  ("palaiseau", "91"),
  ("viry-châtillon", "91"),
  ("vigneux-sur-seine", "91"),
  ("grigny", "91"),
  ("brunoy", "91"),
  ("les ulis", "91"),
  ("longjumeau", "91"),
  ("ris-orangis", "91"),
  ("saint-denis", "93"),
  ("montreuil", "93"),
  ("aubervilliers", "93"),
  ("aulnay-sous-bois", "93"),
  ("drancy", "93"),
  ("noisy-le-grand", "93"),
  ("pantin", "93"),
  ("bondy", "93"),
  ("bobigny", "93"),
  ("le blanc-mesnil", "93"),
  ("sevran", "93"),
  ("épinay-sur-seine", "93"),
  ("livry-gargan", "93"),
  ("clichy-sous-bois", "93"),
  ("stains", "93"),
  ("rosny-sous-bois", "93"),
  ("villepinte", "93"),
  ("la courneuve", "93"),
  ("le raincy", "93"),
  ("gagny", "93"),
  ("neuilly-sur-marne", "93"),
  ("pierrefitte-sur-seine", "93"),
  ("tremblay-en-france", "93"),
  ("villemomble", "93"),
  ("bagnolet", "93"),
  ("les lilas", "93"),
  ("romainville", "93"),
  ("argenteuil", "95"),
  ("sarcelles", "95"),
  ("cergy", "95"),
  ("garges-lès-gonesse", "95"),
  ("goussainville", "95"),
  ("franconville", "95"),
  ("bezons", "95"),
  ("villiers-le-bel", "95"),
  ("ermont", "95"),
  ("pontoise", "95"),
  ("herblay", "95"),
  ("taverny", "95"),
  ("saint-ouen-l'aumône", "95"),
  ("eaubonne", "95"),
  ("montmorency", "95"),
  ("enghien-les-bains", "95"),
  ("deuil-la-barre", "95"),
  ("cormeilles-en-parisis", "95"),
  ("saint-gratien", "95"),
  ("soisy-sous-montmorency", "95")]

/-- `extract_department_from_birthplace(birthplace_name)`: lower-case the
input; the two Paris substring checks return "75"; otherwise the first table
entry (in definition order) whose city name is a substring of the lower-cased
input gives the code; otherwise `None`. -/
def extract_department_from_birthplace (birthplace_name : String) : Option String :=
  let name := pyLower birthplace_name
  if pyIn "arrondissement de paris" name || pyIn "paris" name then
    some "75"
  else
    (city_to_dept.find? (fun p => pyIn p.1 name)).map (fun p => p.2)

example : extract_department_from_birthplace "Bondy" = some "93" := by decide

/-! ## Diaspora Classifier — `categorize_diaspora` -/

def sub_saharan : List String := [
  "Mali", "Sénégal", "Côte d'Ivoire", "Cameroun", "Guinée",
  "République démocratique du Congo", "République du Congo",
  "Togo", "Gabon", "Bénin", "Ghana", "Nigeria", "Burkina Faso",
  "République centrafricaine", "Cap-Vert", "Guinée-Bissau",
  "Madagascar", "Maurice", "Guinée équatoriale", "Gambie",
  "Sierra Leone", "Liberia", "Niger", "Tchad", "Mauritanie",
  "Éthiopie", "Érythrée", "Somalie", "Kenya", "Ouganda",
  "Rwanda", "Burundi", "Tanzanie", "Zambie", "Zimbabwe",
  "Mozambique", "Angola", "Namibie", "Botswana", "Afrique du Sud",
  "Malawi", "Soudan", "Soudan du Sud"]

def maghreb : List String := ["Algérie", "Maroc", "Tunisie", "Libye", "Égypte"]

def overseas : List String := [
  "Guadeloupe", "Martinique", "Guyane", "Réunion", "Mayotte",
  "Haïti", "République dominicaine", "Jamaïque", "Trinité-et-Tobago",
  "Sainte-Lucie", "Dominique", "Grenade", "Barbade", "Antigua-et-Barbuda"]

def comoros : List String := ["Comores"]

def portugal : List String := ["Portugal"]

def other_europe : List String := [
  "Espagne", "Italie", "Pologne", "Roumanie", "Serbie", "Croatie",
  "Bosnie-Herzégovine", "Albanie", "Grèce", "Turquie", "Arménie",
  "Géorgie", "Russie", "Ukraine", "Moldavie", "Belgique", "Pays-Bas",
  "Allemagne", "Suisse", "Autriche", "Hongrie", "République tchèque",
  "Slovaquie", "Bulgarie", "Macédoine du Nord", "Monténégro", "Kosovo"]

def asia : List String := [
  "Vietnam", "Cambodge", "Laos", "Chine", "Japon", "Corée du Sud",
  "Philippines", "Thaïlande", "Indonésie", "Malaisie", "Inde",
  "Pakistan", "Bangladesh", "Sri Lanka", "Afghanistan", "Iran", "Irak"]

/-- The region label assigned by the `if`/`elif` chain of the loop body of
`categorize_diaspora` for one nationality (the first matching set wins within
one nationality; `elif nat in overseas or nat in {"Haïti"}` is transcribed
verbatim). -/
def regionOf (nat : String) : Option String :=
  if sub_saharan.contains nat then some "Sub-Saharan Africa"
  else if maghreb.contains nat then some "Maghreb"
  else if overseas.contains nat || ["Haïti"].contains nat then some "Caribbean/Overseas"
  else if comoros.contains nat then some "Comoros"
  else if portugal.contains nat then some "Portugal"
  else if other_europe.contains nat then some "Other Europe"
  else if asia.contains nat then some "Asia"
  else none

/-- The result record of `categorize_diaspora`. -/
structure DiasporaResult where
  is_dual_national : Bool
  nationalities : List String
  diaspora_region : Option String
  diaspora_countries : List String
  deriving Repr, DecidableEq

/-- One iteration of the `for nat in nationalities` loop: `"France"` is
skipped; a nationality in one of the sets overwrites the region with that
set's label and appends the nationality to the countries list. -/
def diasporaStep (r : DiasporaResult) (nat : String) : DiasporaResult :=
  if nat == "France" then r
  else
    match regionOf nat with
    | some reg =>
        { r with diaspora_region := some reg,
                 diaspora_countries := r.diaspora_countries ++ [nat] }
    | none => r

/-- `categorize_diaspora(nationalities)`. -/
def categorize_diaspora (nationalities : List String) : DiasporaResult :=
  nationalities.foldl diasporaStep
    { is_dual_national := nationalities.length > 1,
      nationalities := nationalities,
      diaspora_region := none,
      diaspora_countries := [] }

/-- The nationalities of the list that are not `"France"` and belong to one of
the region tables, in list order. -/
def matchedNats (nationalities : List String) : List String :=
  nationalities.filter (fun n => n != "France" && (regionOf n).isSome)

theorem diaspora_foldl_spec (nats : List String) :
    ∀ r : DiasporaResult,
      (nats.foldl diasporaStep r).diaspora_countries
          = r.diaspora_countries ++ matchedNats nats
      ∧ (nats.foldl diasporaStep r).diaspora_region
          = (matchedNats nats).getLast?.elim r.diaspora_region regionOf
      ∧ (nats.foldl diasporaStep r).is_dual_national = r.is_dual_national
      ∧ (nats.foldl diasporaStep r).nationalities = r.nationalities := by
  induction nats with
  | nil => intro r; simp [matchedNats]
  | cons n ns ih =>
    intro r
    rw [List.foldl_cons]
    by_cases hf : n = "France"
    · subst hf
      have hstep : diasporaStep r "France" = r := by simp [diasporaStep]
      have hm : matchedNats ("France" :: ns) = matchedNats ns := by
        simp [matchedNats]
      rw [hstep, hm]
      exact ih r
    · match hreg : regionOf n with
      | some reg =>
        have hstep : diasporaStep r n =
            { r with diaspora_region := some reg,
                     diaspora_countries := r.diaspora_countries ++ [n] } := by
          simp [diasporaStep, hf, hreg]
        have hm : matchedNats (n :: ns) = n :: matchedNats ns := by
          simp [matchedNats, hf, hreg]
        rw [hstep, hm]
        obtain ⟨ihc, ihr, ihd, ihn⟩ := ih
          { r with diaspora_region := some reg,
                   diaspora_countries := r.diaspora_countries ++ [n] }
        refine ⟨?_, ?_, by simpa using ihd, by simpa using ihn⟩
        · rw [ihc]; simp
        · rw [ihr]
          match hlast : (matchedNats ns).getLast? with
          | some m =>
            match hmn : matchedNats ns with
            | [] => rw [hmn] at hlast; simp at hlast
            | a :: as =>
              rw [hmn] at hlast
              rw [List.getLast?_cons_cons, hlast]
              simp
          | none =>
            have hnil : matchedNats ns = [] := List.getLast?_eq_none_iff.mp hlast
            simp [hnil, hreg]
      | none =>
        have hstep : diasporaStep r n = r := by
          simp [diasporaStep, hf, hreg]
        have hm : matchedNats (n :: ns) = matchedNats ns := by
          simp [matchedNats, hf, hreg]
        rw [hstep, hm]
        exact ih r

/-- The initial `result` dict built by `categorize_diaspora`. -/
def diasporaInit (nationalities : List String) : DiasporaResult :=
  { is_dual_national := nationalities.length > 1,
    nationalities := nationalities,
    diaspora_region := none,
    diaspora_countries := [] }

theorem categorize_diaspora_eq_foldl (nats : List String) :
    categorize_diaspora nats = nats.foldl diasporaStep (diasporaInit nats) := rfl

theorem categorize_diaspora_countries (nats : List String) :
    (categorize_diaspora nats).diaspora_countries = matchedNats nats := by
  have h := (diaspora_foldl_spec nats (diasporaInit nats)).1
  rw [categorize_diaspora_eq_foldl, h]
  simp [diasporaInit]

theorem categorize_diaspora_region (nats : List String) :
    (categorize_diaspora nats).diaspora_region
      = (matchedNats nats).getLast?.bind regionOf := by
  have h := (diaspora_foldl_spec nats (diasporaInit nats)).2.1
  rw [categorize_diaspora_eq_foldl, h]
  match hlast : (matchedNats nats).getLast? with
  | some m =>
    have hmem : m ∈ matchedNats nats := List.mem_of_mem_getLast? hlast
    have : (regionOf m).isSome := by
      have := List.of_mem_filter hmem
      simp at this
      exact this.2
    match hr : regionOf m with
    | some reg => simp [hr]
    | none => rw [hr] at this; simp at this
  | none => simp [diasporaInit]

theorem categorize_diaspora_dual (nats : List String) :
    (categorize_diaspora nats).is_dual_national = decide (nats.length > 1) := by
  have h := (diaspora_foldl_spec nats (diasporaInit nats)).2.2.1
  rw [categorize_diaspora_eq_foldl, h]
  simp [diasporaInit]

theorem matchedNats_eq_nil_iff (nats : List String) :
    matchedNats nats = [] ↔ ∀ n ∈ nats, n = "France" ∨ regionOf n = none := by
  rw [matchedNats, List.filter_eq_nil_iff]
  constructor
  · intro h n hn
    have := h n hn
    simp at this
    by_cases hf : n = "France"
    · exact Or.inl hf
    · exact Or.inr (this hf)
  · intro h n hn
    simp only [Bool.and_eq_true, bne_iff_ne, ne_eq, Option.isSome_iff_exists, not_and]
    intro hf
    rcases h n hn with rfl | hr
    · exact absurd rfl hf
    · simp [hr]

theorem categorize_diaspora_region_none_iff (nats : List String) :
    (categorize_diaspora nats).diaspora_region = none ↔ matchedNats nats = [] := by
  rw [categorize_diaspora_region]
  constructor
  · intro h
    match hlast : (matchedNats nats).getLast? with
    | none => exact List.getLast?_eq_none_iff.mp hlast
    | some m =>
      rw [hlast] at h
      have hmem : m ∈ matchedNats nats := List.mem_of_mem_getLast? hlast
      have hsome : (regionOf m).isSome := by
        have := List.of_mem_filter hmem
        simp at this
        exact this.2
      rw [Option.some_bind] at h
      rw [h] at hsome
      simp at hsome
  · intro h
    rw [h]
    simp

theorem park_extract_paris (name : String)
    (h : pyIn "paris" (pyLower name) = true) :
    extract_department_from_birthplace name = some "75" := by
  rw [extract_department_from_birthplace]
  simp only [h, Bool.or_true, if_true]

theorem park_extract_no_paris (name : String)
    (h : pyIn "paris" (pyLower name) = false) :
    extract_department_from_birthplace name
      = (city_to_dept.find? (fun p => pyIn p.1 (pyLower name))).map (fun p => p.2) := by
  have harr : pyIn "arrondissement de paris" (pyLower name) = false := by
    by_contra hc
    rw [Bool.not_eq_false] at hc
    have : pyIn "paris" (pyLower name) = true :=
      pyIn_trans (by decide) hc
    rw [this] at h
    exact Bool.true_eq_false.mp h
  rw [extract_department_from_birthplace]
  simp only [harr, h, Bool.or_false, if_false, Bool.false_eq_true]

/-- C5: `categorize_diaspora` iterates the nationalities in list order, skips
"France", appends every nationality that belongs to one of the static region
sets to `diaspora_countries`, and overwrites `diaspora_region` at each match,
so the retained region is the one of the last matching nationality while
`diaspora_countries` accumulates every matching nationality. -/
theorem claim_C5_classifier_last_match_wins (nats : List String) :
    (categorize_diaspora nats).diaspora_countries = matchedNats nats
    ∧ (categorize_diaspora nats).diaspora_region
        = (matchedNats nats).getLast?.bind regionOf :=
  ⟨categorize_diaspora_countries nats, categorize_diaspora_region nats⟩

/-- C6: the classifier's region is null iff no non-French nationality matched
a region table; the countries list is empty iff the region is null; the
dual-national flag is `len(nationalities) > 1`; and the spec's two examples
hold. -/
theorem claim_C6_classifier_invariants (nats : List String) :
    ((categorize_diaspora nats).diaspora_region = none ↔
        ∀ n ∈ nats, n = "France" ∨ regionOf n = none)
    ∧ ((categorize_diaspora nats).diaspora_countries = [] ↔
        (categorize_diaspora nats).diaspora_region = none)
    ∧ (categorize_diaspora nats).is_dual_national = decide (nats.length > 1)
    ∧ categorize_diaspora ["France", "Cameroun"] =
        { is_dual_national := true, nationalities := ["France", "Cameroun"],
          diaspora_region := some "Sub-Saharan Africa",
          diaspora_countries := ["Cameroun"] }
    ∧ categorize_diaspora ["France"] =
        { is_dual_national := false, nationalities := ["France"],
          diaspora_region := none, diaspora_countries := [] } := by
  refine ⟨?_, ?_, categorize_diaspora_dual nats, by decide, by decide⟩
  · rw [categorize_diaspora_region_none_iff]
    exact matchedNats_eq_nil_iff nats
  · rw [categorize_diaspora_countries, categorize_diaspora_region_none_iff]

/-- C7: the Geographic Resolver lower-cases the input, returns "75" whenever
the lower-cased input contains "paris" (so in particular whenever it contains
"arrondissement de paris"), otherwise returns the code of the first
table entry (in definition order) whose city name is a substring, and the
spec's three examples hold. -/
theorem claim_C7_resolver (name : String) :
    (pyIn "paris" (pyLower name) = true →
        extract_department_from_birthplace name = some "75")
    ∧ (pyIn "paris" (pyLower name) = false →
        extract_department_from_birthplace name
          = (city_to_dept.find? (fun p => pyIn p.1 (pyLower name))).map (fun p => p.2))
    ∧ extract_department_from_birthplace "75003 Paris" = some "75"
    ∧ extract_department_from_birthplace "Bondy" = some "93"
    ∧ extract_department_from_birthplace "Unknown City, Mars" = none :=
  ⟨park_extract_paris name, park_extract_no_paris name, by decide, by decide, by decide⟩

theorem claim_C7_resolver_witness :
    (pyIn "paris" (pyLower "75003 Paris") = true
      ∧ extract_department_from_birthplace "75003 Paris" = some "75")
    ∧ (pyIn "paris" (pyLower "Bondy") = false
      ∧ extract_department_from_birthplace "Bondy"
          = (city_to_dept.find? (fun p => pyIn p.1 (pyLower "Bondy"))).map (fun p => p.2)) :=
  ⟨⟨by decide, (claim_C7_resolver "75003 Paris").1 (by decide)⟩,
   ⟨by decide, (claim_C7_resolver "Bondy").2.1 (by decide)⟩⟩

/-- C10: any birthplace whose lower-cased form contains "paris" resolves to
"75" before the city table is consulted; hence the table rows for
"villeparisis" (77) and "cormeilles-en-parisis" (95) are unreachable:
any input containing those city names also contains "paris" and resolves to
"75", in particular `Resolver("Villeparisis")` and
`Resolver("Cormeilles-en-Parisis")`. -/
theorem claim_C10_paris_shadowing (name : String) :
    (pyIn "paris" (pyLower name) = true →
        extract_department_from_birthplace name = some "75")
    ∧ (pyIn "villeparisis" (pyLower name) = true →
        extract_department_from_birthplace name = some "75")
    ∧ (pyIn "cormeilles-en-parisis" (pyLower name) = true →
        extract_department_from_birthplace name = some "75")
    ∧ extract_department_from_birthplace "Villeparisis" = some "75"
    ∧ extract_department_from_birthplace "Cormeilles-en-Parisis" = some "75" := by
  refine ⟨park_extract_paris name, ?_, ?_, by decide, by decide⟩
  · intro h
    exact park_extract_paris name (pyIn_trans (by decide) h)
  · intro h
    exact park_extract_paris name (pyIn_trans (by decide) h)

theorem claim_C10_paris_shadowing_witness :
    (pyIn "villeparisis" (pyLower "Villeparisis") = true
      ∧ extract_department_from_birthplace "Villeparisis" = some "75")
    ∧ (pyIn "cormeilles-en-parisis" (pyLower "Cormeilles-en-Parisis") = true
      ∧ extract_department_from_birthplace "Cormeilles-en-Parisis" = some "75") :=
  ⟨⟨by decide, (claim_C10_paris_shadowing "Villeparisis").2.1 (by decide)⟩,
   ⟨by decide, (claim_C10_paris_shadowing "Cormeilles-en-Parisis").2.2.1 (by decide)⟩⟩

/-! ## Enrichment Aggregator — `analyze_dataset`

A raw player record; dict accesses with defaults
(`player.get("nationalities", [])`, `player.get("date_of_birth", "")`,
`birthplace.get("name", "") if isinstance(birthplace, dict) else ""`) are
modelled by fields holding the already-defaulted values: a missing or null
birth date is `""`, a missing birthplace or non-dict birthplace is
`birthplace_name = ""`, missing nationalities are `[]`. -/
structure RawPlayer where
  wikidata_id : String := ""
  name : String := ""
  date_of_birth : String := ""
  birthplace_name : String := ""
  nationalities : List String := []
  deriving Repr, DecidableEq, Inhabited

/-- The enriched record `{**player, "department": …, "birth_year": …,
"is_dual_national": …, "diaspora_region": …, "diaspora_countries": …}`. -/
structure EnrichedPlayer where
  raw : RawPlayer
  department : Option String
  birth_year : Option Int
  is_dual_national : Bool
  diaspora_region : Option String
  diaspora_countries : List String
  deriving Repr, DecidableEq, Inhabited

/-- The expression `int(dob[:4]) if dob and len(dob) >= 4 else None` of the
enriched-record construction (line 332).  Unlike the counter path this
expression is **not** wrapped in `try/except`, so an unparsable 4-character
prefix raises `ValueError`. -/
def birthYearField (dob : String) : Except PyError (Option Int) :=
  if !dob.data.isEmpty && decide (dob.data.length ≥ 4) then
    match pyIntOfChars (dob.data.take 4) with
    | some y => .ok (some y)
    | none => .error .valueError
  else .ok none

/-- The per-record enrichment transform (lines 328–337): reuses the department
and diaspora values computed in the loop body. -/
def enrichPlayer (player : RawPlayer) : Except PyError EnrichedPlayer :=
  let dept := extract_department_from_birthplace player.birthplace_name
  let diaspora := categorize_diaspora player.nationalities
  match birthYearField player.date_of_birth with
  | .error e => .error e
  | .ok y =>
      .ok { raw := player,
            department := dept,
            birth_year := y,
            is_dual_national := diaspora.is_dual_national,
            diaspora_region := diaspora.diaspora_region,
            diaspora_countries := diaspora.diaspora_countries }

/-- The mutable accumulators of the `for player in players` loop. -/
structure AggState where
  nationalities_all : List String
  dual_nationals : Nat
  birth_years : List Int
  departments : List (String × Nat)
  diaspora_regions : List (String × Nat)
  diaspora_countries : List (String × Nat)
  enriched_players : List EnrichedPlayer
  deriving Repr, DecidableEq

def initAggState : AggState :=
  { nationalities_all := [], dual_nationals := 0, birth_years := [],
    departments := [], diaspora_regions := [], diaspora_countries := [],
    enriched_players := [] }

/-- One iteration of the loop (lines 297–337).  The `try`-protected birth-year
append (lines 307–312) swallows the `ValueError`; the enriched-record
construction does not, and its exception aborts the whole analysis. The
resolver never returns an empty string and region labels are nonempty, so the
truthiness tests `if dept:` and `if diaspora["diaspora_region"]:` are
option-matches. -/
def processPlayer (st : AggState) (player : RawPlayer) : Except PyError AggState :=
  let nats := player.nationalities
  let dob := player.date_of_birth
  let dept := extract_department_from_birthplace player.birthplace_name
  let diaspora := categorize_diaspora nats
  match enrichPlayer player with
  | .error e => .error e
  | .ok enr =>
      .ok { nationalities_all := st.nationalities_all ++ nats,
            dual_nationals :=
              if nats.length > 1 then st.dual_nationals + 1 else st.dual_nationals,
            birth_years :=
              if !dob.data.isEmpty && decide (dob.data.length ≥ 4) then
                match pyIntOfChars (dob.data.take 4) with
                | some y => st.birth_years ++ [y]
                | none => st.birth_years
              else st.birth_years,
            departments :=
              match dept with
              | some d => bump st.departments d
              | none => st.departments,
            diaspora_regions :=
              match diaspora.diaspora_region with
              | some reg => bump st.diaspora_regions reg
              | none => st.diaspora_regions,
            diaspora_countries :=
              match diaspora.diaspora_region with
              | some _ => diaspora.diaspora_countries.foldl bump st.diaspora_countries
              | none => st.diaspora_countries,
            enriched_players := st.enriched_players ++ [enr] }

/-- The aggregation loop with Python exception propagation. -/
def analyzeLoop (st : AggState) : List RawPlayer → Except PyError AggState
  | [] => .ok st
  | p :: ps =>
      match processPlayer st p with
      | .error e => .error e
      | .ok st' => analyzeLoop st' ps

/-- Python `round()` to the nearest integer, ties to even (banker's
rounding). -/
def roundHalfEven (q : ℚ) : ℤ :=
  let f := q.floor
  let frac := q - (f : ℚ)
  if frac < 1 / 2 then f
  else if frac > 1 / 2 then f + 1
  else if f % 2 = 0 then f else f + 1

/-- `round(x, 1)` modelled on exact rationals (float representation effects
are not modelled; no claim depends on the rounded value). -/
def round1 (q : ℚ) : ℚ :=
  ((roundHalfEven (10 * q) : ℤ) : ℚ) / 10

structure Metadata where
  total_players : Nat
  analysis_date : String
  data_source : String
  limitations : List String
  deriving Repr, DecidableEq, Inhabited

structure Demographics where
  total_players : Nat
  dual_nationals : Nat
  dual_national_pct : ℚ
  top_nationalities : List (String × Nat)
  deriving Repr, DecidableEq, Inhabited

structure DiasporaStats where
  by_region : List (String × Nat)
  by_country : List (String × Nat)
  total_diaspora : Nat
  diaspora_pct : ℚ
  deriving Repr, DecidableEq, Inhabited

structure TemporalStats where
  by_year : List (Int × Nat)
  by_5year : List (Int × Nat)
  earliest_birth : Option Int
  latest_birth : Option Int
  deriving Repr, DecidableEq, Inhabited

structure GeographicStats where
  by_department : List (String × Nat × String)
  missing_departments : List String
  deriving Repr, DecidableEq, Inhabited

structure AnalysisResults where
  metadata : Metadata
  demographics : Demographics
  diaspora : DiasporaStats
  temporal : TemporalStats
  geographic : GeographicStats
  deriving Repr, DecidableEq, Inhabited

def dept_names : List (String × String) :=
  [("75", "Paris"), ("77", "Seine-et-Marne"), ("78", "Yvelines"),
   ("91", "Essonne"), ("92", "Hauts-de-Seine"), ("93", "Seine-Saint-Denis"),
   ("94", "Val-de-Marne"), ("95", "Val-d'Oise")]

/-- `dept_names.get(dept, dept)`. -/
def deptNameOf (d : String) : String :=
  (((dept_names.find? (fun p => p.1 == d)).map (fun p => p.2))).getD d

def limitations_list : List String :=
  ["Missing Seine-Saint-Denis (93) - rate limited",
   "Missing Val-d'Oise (95) - rate limited",
   "Only includes players with Wikidata entries",
   "Birthplace != where player was raised/trained"]

/-- `analyze_dataset(players)` (lines 266–390).  `now` models
`datetime.now().isoformat()`; it flows only into `metadata.analysis_date`.
The first percentage computation divides by `len(players)` and raises
`ZeroDivisionError` on an empty list. -/
def analyze_dataset (players : List RawPlayer) (now : String) :
    Except PyError (AnalysisResults × List EnrichedPlayer) :=
  match analyzeLoop initAggState players with
  | .error e => .error e
  | .ok st =>
      if players.length = 0 then .error .zeroDivisionError
      else
        let nat_counts := counterOf st.nationalities_all
        let year_counts := counterOf st.birth_years
        let decade_counts :=
          year_counts.foldl (fun m p => bumpBy m (Int.fdiv p.1 5 * 5) p.2) []
        .ok
          ({ metadata :=
               { total_players := players.length,
                 analysis_date := now,
                 data_source := "Wikidata",
                 limitations := limitations_list },
             demographics :=
               { total_players := players.length,
                 dual_nationals := st.dual_nationals,
                 dual_national_pct :=
                   round1 (100 * (st.dual_nationals : ℚ) / (players.length : ℚ)),
                 top_nationalities := (sortByCountDesc nat_counts).take 20 },
             diaspora :=
               { by_region := st.diaspora_regions,
                 by_country := (sortByCountDesc st.diaspora_countries).take 20,
                 total_diaspora := sumCounts st.diaspora_regions,
                 diaspora_pct :=
                   round1 (100 * (sumCounts st.diaspora_regions : ℚ) /
                     (players.length : ℚ)) },
             temporal :=
               { by_year := sortByKeyAsc year_counts,
                 by_5year := sortByKeyAsc decade_counts,
                 earliest_birth := st.birth_years.min?,
                 latest_birth := st.birth_years.max? },
             geographic :=
               { by_department :=
                   (sortByCountDesc st.departments).map
                     (fun p => (p.1, p.2, deptNameOf p.1)),
                 missing_departments := ["93", "95"] } },
           st.enriched_players)

theorem enrichPlayer_error {p : RawPlayer} {e : PyError}
    (h : enrichPlayer p = .error e) : e = .valueError := by
  rw [enrichPlayer] at h
  cases hb : birthYearField p.date_of_birth with
  | ok y => rw [hb] at h; cases h
  | error e2 =>
    rw [hb] at h
    injection h with h2
    subst h2
    rw [birthYearField] at hb
    split at hb
    · cases hx : pyIntOfChars (List.take 4 p.date_of_birth.data) with
      | some y => rw [hx] at hb; cases hb
      | none =>
        rw [hx] at hb
        injection hb with h3
        exact h3.symm
    · cases hb

theorem processPlayer_error {st : AggState} {p : RawPlayer} {e : PyError}
    (h : processPlayer st p = .error e) : e = .valueError := by
  rw [processPlayer] at h
  cases he : enrichPlayer p with
  | error e2 =>
    rw [he] at h
    injection h with h2
    subst h2
    exact enrichPlayer_error he
  | ok enr => rw [he] at h; cases h

theorem analyzeLoop_error :
    ∀ (ps : List RawPlayer) (st : AggState) (e : PyError),
      analyzeLoop st ps = .error e → e = .valueError := by
  intro ps
  induction ps with
  | nil => intro st e h; cases h
  | cons p ps ih =>
    intro st e h
    rw [analyzeLoop] at h
    cases hp : processPlayer st p with
    | error e2 =>
      rw [hp] at h
      injection h with h2
      subst h2
      exact processPlayer_error hp
    | ok st2 =>
      rw [hp] at h
      exact ih st2 e h

/-- Elimination principle for a successful loop iteration. -/
theorem processPlayer_ok {st st2 : AggState} {p : RawPlayer}
    (h : processPlayer st p = .ok st2) :
    ∃ enr, enrichPlayer p = .ok enr
      ∧ st2.departments
          = (extract_department_from_birthplace p.birthplace_name).elim
              st.departments (bump st.departments)
      ∧ st2.diaspora_regions
          = ((categorize_diaspora p.nationalities).diaspora_region).elim
              st.diaspora_regions (bump st.diaspora_regions)
      ∧ st2.enriched_players = st.enriched_players ++ [enr] := by
  rw [processPlayer] at h
  cases he : enrichPlayer p with
  | error e => rw [he] at h; cases h
  | ok enr =>
    rw [he] at h
    injection h with h2
    subst h2
    refine ⟨enr, rfl, ?_, ?_, rfl⟩
    · cases extract_department_from_birthplace p.birthplace_name <;> rfl
    · cases (categorize_diaspora p.nationalities).diaspora_region <;> rfl

theorem sumCounts_optBump {κ : Type} [BEq κ] (m : List (κ × Nat)) (o : Option κ) :
    sumCounts (o.elim m (bump m)) = sumCounts m + if o.isSome then 1 else 0 := by
  cases o <;> simp [sumCounts_bump]

/-- The player's department resolves. -/
def deptResolved (p : RawPlayer) : Bool :=
  (extract_department_from_birthplace p.birthplace_name).isSome

/-- The player's diaspora region is assigned. -/
def regionAssigned (p : RawPlayer) : Bool :=
  ((categorize_diaspora p.nationalities).diaspora_region).isSome

theorem analyzeLoop_ok_spec :
    ∀ (ps : List RawPlayer) (st st2 : AggState),
      analyzeLoop st ps = .ok st2 →
      sumCounts st2.departments
          = sumCounts st.departments + ps.countP deptResolved
        ∧ sumCounts st2.diaspora_regions
          = sumCounts st.diaspora_regions + ps.countP regionAssigned
        ∧ ∃ es, ps.mapM enrichPlayer = .ok es
            ∧ st2.enriched_players = st.enriched_players ++ es := by
  intro ps
  induction ps with
  | nil =>
    intro st st2 h
    cases h
    exact ⟨by simp, by simp, [], rfl, by simp⟩
  | cons p ps ih =>
    intro st st2 h
    rw [analyzeLoop] at h
    cases hp : processPlayer st p with
    | error e => rw [hp] at h; cases h
    | ok st1 =>
      rw [hp] at h
      obtain ⟨hd, hr, es, hes, hen⟩ := ih st1 st2 h
      obtain ⟨enr, henr, hd1, hr1, hen1⟩ := processPlayer_ok hp
      refine ⟨?_, ?_, enr :: es, ?_, ?_⟩
      · rw [hd, hd1, List.countP_cons, sumCounts_optBump]
        simp only [deptResolved]
        omega
      · rw [hr, hr1, List.countP_cons, sumCounts_optBump]
        simp only [regionAssigned]
        omega
      · rw [List.mapM_cons, henr, hes]; rfl
      · rw [hen, hen1]; simp

/-- Elimination principle for a successful run of `analyze_dataset`,
exposing how each published aggregate is assembled from the loop state. -/
theorem analyze_dataset_ok_elim {ps : List RawPlayer} {now : String}
    {r : AnalysisResults} {enr : List EnrichedPlayer}
    (h : analyze_dataset ps now = .ok (r, enr)) :
    ∃ st, analyzeLoop initAggState ps = .ok st
      ∧ ps.length ≠ 0
      ∧ r.demographics.total_players = ps.length
      ∧ r.diaspora.by_region = st.diaspora_regions
      ∧ r.diaspora.by_country = (sortByCountDesc st.diaspora_countries).take 20
      ∧ r.temporal.by_5year
          = sortByKeyAsc ((counterOf st.birth_years).foldl
              (fun m p => bumpBy m (Int.fdiv p.1 5 * 5) p.2) [])
      ∧ r.geographic.by_department
          = (sortByCountDesc st.departments).map (fun p => (p.1, p.2, deptNameOf p.1))
      ∧ enr = st.enriched_players := by
  rw [analyze_dataset] at h
  split at h
  · cases h
  · rename_i st hl
    split at h
    · cases h
    · rename_i h0
      simp only [Except.ok.injEq, Prod.mk.injEq] at h
      obtain ⟨hr, he⟩ := h
      subst hr
      subst he
      exact ⟨st, hl, h0, rfl, rfl, rfl, rfl, rfl, rfl⟩

/-- A record whose birth-date string has length ≥ 4 but whose first four
characters are not a valid integer. -/
def badDatePlayer : RawPlayer :=
  { wikidata_id := "Q1", name := "Test Player", date_of_birth := "19XX-01-01",
    birthplace_name := "Bondy", nationalities := ["France"] }

/-- C1 (code bug): on a record whose birth-date string cannot be parsed, the
enriched-record construction `int(dob[:4]) if dob and len(dob) >= 4 else None`
(line 332) raises `ValueError` — it lacks the `try/except` that protects the
birth-year counter (lines 308–312) — so `analyze_dataset` fails instead of
including the record with a null birth year. -/
theorem claim_C1_unparsable_birthdate_crash :
    analyze_dataset [badDatePlayer] "2024-01-01" = .error .valueError
    ∧ birthYearField badDatePlayer.date_of_birth = .error .valueError
    ∧ pyInt? "19XX" = none := by
  refine ⟨?_, by decide, by decide⟩
  decide

/-- C9: `analyze_dataset` raises `ZeroDivisionError` on the empty record list
(at the `dual_national_pct` computation), and for every non-empty input the
division-by-zero branch is unreachable: the run never fails with
`ZeroDivisionError`. -/
theorem claim_C9_empty_input_divzero :
    (∀ now : String, analyze_dataset [] now = .error .zeroDivisionError)
    ∧ (∀ (ps : List RawPlayer) (now : String), ps ≠ [] →
        analyze_dataset ps now ≠ .error .zeroDivisionError) := by
  constructor
  · intro now
    rfl
  · intro ps now hne hc
    rw [analyze_dataset] at hc
    split at hc
    · rename_i e heq
      have hv := analyzeLoop_error ps initAggState e heq
      rw [hv] at hc
      simp at hc
    · split at hc
      · rename_i h0
        exact hne (List.length_eq_zero.mp h0)
      · simp at hc

theorem claim_C9_empty_input_divzero_witness :
    ([badDatePlayer] ≠ ([] : List RawPlayer))
    ∧ analyze_dataset [badDatePlayer] "2024-01-01" ≠ .error .zeroDivisionError :=
  ⟨by decide, claim_C9_empty_input_divzero.2 [badDatePlayer] "2024-01-01" (by decide)⟩

theorem countP_add_countP_not {α : Type} (p : α → Bool) (l : List α) :
    l.countP p + l.countP (fun a => !p a) = l.length := by
  induction l with
  | nil => rfl
  | cons a l ih =>
    rw [List.countP_cons, List.countP_cons]
    by_cases h : p a = true
    · simp only [h]
      simp at ih ⊢
      omega
    · rw [Bool.not_eq_true] at h
      simp only [h]
      simp at ih ⊢
      omega

/-- C3: after a successful aggregation pass, resolved per-department counts
plus the unresolved records (null department) add up to the total player
count, and assigned per-region counts plus the region-less records (null
diaspora region) add up to the total player count. -/
theorem claim_C3_aggregate_totals (ps : List RawPlayer) (now : String)
    (r : AnalysisResults) (enr : List EnrichedPlayer)
    (h : analyze_dataset ps now = .ok (r, enr)) :
    ((r.geographic.by_department.map (fun x => x.2.1)).sum
        + ps.countP (fun p => !deptResolved p) = ps.length)
    ∧ (sumCounts r.diaspora.by_region
        + ps.countP (fun p => !regionAssigned p) = ps.length)
    ∧ r.demographics.total_players = ps.length := by
  obtain ⟨st, hl, h0, htot, hreg, _, _, hdep, _⟩ := analyze_dataset_ok_elim h
  obtain ⟨hd, hr, _⟩ := analyzeLoop_ok_spec ps initAggState st hl
  refine ⟨?_, ?_, htot⟩
  · have hmap : (r.geographic.by_department.map (fun x => x.2.1)).sum
        = sumCounts (sortByCountDesc st.departments) := by
      rw [hdep, sumCounts, List.map_map]
      rfl
    rw [hmap, sumCounts_sortByCountDesc, hd]
    have hpart := countP_add_countP_not deptResolved ps
    have hz : sumCounts initAggState.departments = 0 := rfl
    omega
  · rw [hreg, hr]
    have hpart := countP_add_countP_not regionAssigned ps
    have hz : sumCounts initAggState.diaspora_regions = 0 := rfl
    omega

/-- A concrete two-record run used to witness the aggregate-total claim. -/
def twoPlayers : List RawPlayer :=
  [{ wikidata_id := "Q2", name := "A", date_of_birth := "1986-05-05",
     birthplace_name := "Bondy", nationalities := ["France", "Mali"] },
   { wikidata_id := "Q3", name := "B", date_of_birth := "",
     birthplace_name := "Nowhere", nationalities := [] }]

def twoPlayersRun : Except PyError (AnalysisResults × List EnrichedPlayer) :=
  analyze_dataset twoPlayers "2024-01-01"

def twoPlayersResults : AnalysisResults :=
  match twoPlayersRun with
  | .ok (r, _) => r
  | .error _ => default

def twoPlayersEnriched : List EnrichedPlayer :=
  match twoPlayersRun with
  | .ok (_, e) => e
  | .error _ => []

theorem claim_C3_aggregate_totals_witness :
    analyze_dataset twoPlayers "2024-01-01"
        = .ok (twoPlayersResults, twoPlayersEnriched)
    ∧ ((twoPlayersResults.geographic.by_department.map (fun x => x.2.1)).sum
        + twoPlayers.countP (fun p => !deptResolved p) = twoPlayers.length) :=
  ⟨rfl,
   (claim_C3_aggregate_totals twoPlayers "2024-01-01" twoPlayersResults
     twoPlayersEnriched rfl).1⟩

/-- The clock-independent part of a run: everything except
`metadata.analysis_date` (and the rest of the metadata, which is constant). -/
def countersAndRecords (x : AnalysisResults × List EnrichedPlayer) :
    Demographics × DiasporaStats × TemporalStats × GeographicStats ×
      List EnrichedPlayer :=
  (x.1.demographics, x.1.diaspora, x.1.temporal, x.1.geographic, x.2)

/-- C4: `analyze_dataset` is deterministic given the raw list — two runs (with
different wall clocks) produce identical aggregate counters and enriched
records — and order-preserving: on success the enriched list is exactly the
element-wise enrichment of the raw list, in input order. -/
theorem claim_C4_determinism_order (ps : List RawPlayer) (t1 t2 : String) :
    ((analyze_dataset ps t1).map countersAndRecords
      = (analyze_dataset ps t2).map countersAndRecords)
    ∧ ((analyze_dataset ps t1).isOk = true →
        (analyze_dataset ps t1).map (fun x => x.2) = ps.mapM enrichPlayer) := by
  constructor
  · cases hl : analyzeLoop initAggState ps with
    | error e =>
      rw [analyze_dataset, analyze_dataset, hl]
    | ok st =>
      rw [analyze_dataset, analyze_dataset, hl]
      by_cases h0 : ps.length = 0
      · simp [h0]
      · simp only [if_neg h0]
        rfl
  · intro hok
    cases hres : analyze_dataset ps t1 with
    | error e => rw [hres] at hok; cases hok
    | ok x =>
      obtain ⟨r, enr⟩ := x
      obtain ⟨st, hl, h0, _, _, _, _, _, henr⟩ := analyze_dataset_ok_elim hres
      obtain ⟨_, _, es, hes, hen⟩ := analyzeLoop_ok_spec ps initAggState st hl
      rw [hes]
      simp only [Except.map]
      rw [henr, hen]
      simp [initAggState]

theorem claim_C4_determinism_order_witness :
    (analyze_dataset twoPlayers "2024-01-01").isOk = true
    ∧ (analyze_dataset twoPlayers "2024-01-01").map (fun x => x.2)
        = twoPlayers.mapM enrichPlayer :=
  ⟨by decide,
   (claim_C4_determinism_order twoPlayers "2024-01-01" "2025-06-30").2 (by decide)⟩

/-! ## `load_data` (lines 18–22)

The top level of the parsed JSON document.  `data.get("players", data)` is a
dict method: on a JSON object it returns the value under `"players"` (or the
whole object when the key is absent); on any other top-level value — in
particular a bare array — Python raises
`AttributeError: 'list' object has no attribute 'get'`. -/
inductive JsonVal where
  | null
  | bool (b : Bool)
  | num (n : Int)
  | str (s : String)
  | arr (elems : List JsonVal)
  | obj (fields : List (String × JsonVal))

/-- `load_data`: `json.load` already done, returns
`data.get("players", data)`. -/
def load_data : JsonVal → Except PyError JsonVal
  | .obj fields =>
      .ok ((((fields.find? (fun p => p.1 == "players")).map (fun p => p.2))).getD
        (.obj fields))
  | _ => .error .attributeError

/-- C2 (code bug): `load_data` returns the array under the `players` key of an
object, but on a bare top-level array `data.get` raises `AttributeError`
instead of returning the array. -/
theorem claim_C2_load_data (players : List JsonVal)
    (fields : List (String × JsonVal)) :
    load_data (.obj (("players", .arr players) :: fields)) = .ok (.arr players)
    ∧ load_data (.arr players) = .error .attributeError := by
  constructor
  · rw [load_data]
    simp [List.find?]
  · rfl

/-! ## Report Generator — `generate_article_stats` (lines 393–437)

The report is modelled as the list of its output lines (the Python code joins
them with newlines).  Number formatting is Lean's `toString`; the claims below
concern only the order of the table rows, never the rendered digits. -/

/-- Rows of the "Diaspora Breakdown" table (line 409):
`sorted(by_region.items(), key=lambda x: -x[1])`. -/
def diasporaTableRows (results : AnalysisResults) : List (String × Nat) :=
  sortByCountDesc results.diaspora.by_region

/-- Rows of the "Top Countries" table (line 416):
`list(by_country.items())[:10]`, in the dict's existing order. -/
def countryTableRows (results : AnalysisResults) : List (String × Nat) :=
  results.diaspora.by_country.take 10

/-- Rows of the "By Département" table (line 422), in `by_department` dict
order (two hardcoded "Data missing" rows follow them, lines 424–425). -/
def deptTableRows (results : AnalysisResults) : List (String × Nat × String) :=
  results.geographic.by_department

/-- Rows of the "Birth Year Trends" table (line 430):
`sorted(by_5year.items())` — sorted by period, ascending. -/
def fiveYearTableRows (results : AnalysisResults) : List (Int × Nat) :=
  sortByKeyAsc results.temporal.by_5year

def generate_article_stats (results : AnalysisResults) : List String :=
  let date := results.metadata.analysis_date
  let total := results.demographics.total_players
  let dualPct := results.demographics.dual_national_pct
  let diaPct := results.diaspora.diaspora_pct
  ["# Key Statistics for Article\n",
   s!"*Generated: {date}*\n",
   "\n## Headline Numbers\n",
   s!"- **{total}** professional footballers born in Île-de-France (1980-2006)",
   s!"- **{dualPct}%** are dual nationals",
   s!"- **{diaPct}%** have African diaspora background",
   "\n## Diaspora Breakdown\n",
   "| Region | Players | % of Total |",
   "|--------|---------|------------|"]
  ++ (diasporaTableRows results).map (fun row =>
       let reg := row.1
       let cnt := row.2
       let pct := round1 (100 * (cnt : ℚ) / (total : ℚ))
       s!"| {reg} | {cnt} | {pct}% |")
  ++ ["\n## Top Countries (besides France)\n",
      "| Country | Players |",
      "|---------|---------|"]
  ++ (countryTableRows results).map (fun row =>
       let country := row.1
       let cnt := row.2
       s!"| {country} | {cnt} |")
  ++ ["\n## By Département\n",
      "| Département | Players |",
      "|-------------|---------|"]
  ++ (deptTableRows results).map (fun row =>
       let dept := row.1
       let cnt := row.2.1
       let nm := row.2.2
       s!"| {nm} ({dept}) | {cnt} |")
  ++ ["| Seine-Saint-Denis (93) | ⚠️ Data missing |",
      "| Val-d'Oise (95) | ⚠️ Data missing |",
      "\n## Birth Year Trends\n",
      "| Period | Players |",
      "|--------|---------|"]
  ++ (fiveYearTableRows results).map (fun row =>
       let period := row.1
       let p4 := row.1 + 4
       let cnt := row.2
       s!"| {period}-{p4} | {cnt} |")
  ++ ["\n## Limitations\n"]
  ++ results.metadata.limitations.map (fun l => s!"- {l}")

/-- Input whose birth-year buckets are 1980 (1 player) and 1985 (2 players):
chronological order puts the smaller count first. -/
def unsortedYearsPlayers : List RawPlayer :=
  [{ wikidata_id := "Q4", name := "C", date_of_birth := "1980-01-01",
     birthplace_name := "Meaux", nationalities := ["France"] },
   { wikidata_id := "Q5", name := "D", date_of_birth := "1986-05-05",
     birthplace_name := "Bondy", nationalities := ["France", "Mali"] },
   { wikidata_id := "Q6", name := "E", date_of_birth := "1987-06-06",
     birthplace_name := "Massy", nationalities := ["France", "Maroc"] }]

def unsortedYearsResults : AnalysisResults :=
  match analyze_dataset unsortedYearsPlayers "2024-01-01" with
  | .ok (r, _) => r
  | .error _ => default

def unsortedYearsEnriched : List EnrichedPlayer :=
  match analyze_dataset unsortedYearsPlayers "2024-01-01" with
  | .ok (_, e) => e
  | .error _ => []

/-- C8 counterexample: on a successful run, the Birth Year Trends table of the
report has rows `[(1980, 1), (1985, 2)]` — ascending periods, counts 1 then
2 — so not every markdown table is sorted by descending count. -/
theorem claim_C8_counterexample :
    (analyze_dataset unsortedYearsPlayers "2024-01-01").isOk = true
    ∧ fiveYearTableRows unsortedYearsResults = [(1980, 1), (1985, 2)]
    ∧ ¬ DescByCount (fiveYearTableRows unsortedYearsResults) := by
  refine ⟨by decide, by decide, ?_⟩
  intro h
  rw [show fiveYearTableRows unsortedYearsResults = [(1980, 1), (1985, 2)] from
    by decide] at h
  rw [DescByCount, List.pairwise_cons] at h
  have := h.1 (1985, 2) (by simp)
  simp at this

/-- C8 amended: in the report generated from a successful `analyze_dataset`
run, the Diaspora Breakdown, Top Countries and By Département tables are
sorted by descending count, while the Birth Year Trends table is sorted by
ascending period instead. -/
theorem claim_C8_table_sorting (ps : List RawPlayer) (now : String)
    (r : AnalysisResults) (enr : List EnrichedPlayer)
    (h : analyze_dataset ps now = .ok (r, enr)) :
    DescByCount (diasporaTableRows r)
    ∧ DescByCount (countryTableRows r)
    ∧ (deptTableRows r).Pairwise (fun a b => b.2.1 ≤ a.2.1)
    ∧ AscByKey (fiveYearTableRows r) := by
  obtain ⟨st, hl, h0, htot, hreg, hcountry, h5, hdep, henr⟩ :=
    analyze_dataset_ok_elim h
  refine ⟨descByCount_sortByCountDesc _, ?_, ?_, ascByKey_sortByKeyAsc _⟩
  · rw [countryTableRows, hcountry]
    exact List.Pairwise.sublist
      ((List.take_sublist _ _).trans (List.take_sublist _ _))
      (descByCount_sortByCountDesc st.diaspora_countries)
  · rw [deptTableRows, hdep, List.pairwise_map]
    exact descByCount_sortByCountDesc st.departments

theorem claim_C8_table_sorting_witness :
    analyze_dataset unsortedYearsPlayers "2024-01-01"
        = .ok (unsortedYearsResults, unsortedYearsEnriched)
    ∧ DescByCount (diasporaTableRows unsortedYearsResults)
    ∧ AscByKey (fiveYearTableRows unsortedYearsResults) :=
  ⟨rfl,
   (claim_C8_table_sorting unsortedYearsPlayers "2024-01-01" unsortedYearsResults
     unsortedYearsEnriched rfl).1,
   (claim_C8_table_sorting unsortedYearsPlayers "2024-01-01" unsortedYearsResults
     unsortedYearsEnriched rfl).2.2.2⟩
